import Mathlib

/-!
Verification of the function-definition macros of the typst repository
(src/func/macros.rs): the `function!` macro's generated `parse` wrapper and
`layout` wrapper, the `parse!` body policies (forbidden / optional /
expected) and the `error!` helper.

The macros generate Rust code; we embed the behaviour of the generated
code.  A parse implementation body may mutate the header (bound with
`let mut`) and may early-return an error, so it is modelled as a function
returning `Except TypesetError (value × final header)`.  A layout body may
early-return an error and otherwise evaluates to a `Commands` value, so it
is modelled as `Except TypesetError Commands`.
-/

namespace Typst

/-- An error value with a human-readable message, as built by
`TypesetError::with_message`. -/
structure TypesetError where
  message : String
deriving Repr, DecidableEq

/-- Mirrors `TypesetError::with_message`. -/
def TypesetError.withMessage (message : String) : TypesetError :=
  ⟨message⟩

/-- `ParseResult<T>` from the source: a value or a typeset error. -/
abbrev ParseResult (α : Type) : Type := Except TypesetError α

/-- Modelled from the spec: `syntax::FuncHeader` is defined outside this
slice; per the spec it is a parsed name together with an ordered argument
list, and the only operation the macro applies to it is `args.is_empty()`. -/
structure FuncHeader (Arg : Type) where
  name : String
  args : List Arg
deriving Repr, DecidableEq

/-- The message of the argument-exhaustion check generated by the
`function!` macro (the literal at src/func/macros.rs line 91). -/
def argumentExhaustionMessage : String := "unexpected arguments"

/-- The `parse` function generated by the 4-argument form of
`function!(@parse ...)`: run the implementation body `code` on the
(mutable) header, body, context and metadata; if it early-returns an
error, that error is the result; otherwise, if the final header still has
arguments, fail with the argument-exhaustion error, else succeed with the
body's value. -/
def functionParse4 {Arg C M α : Type}
    (code : FuncHeader Arg → Option String → C → M → ParseResult (α × FuncHeader Arg))
    (header : FuncHeader Arg) (body : Option String) (ctx : C) (meta : M) :
    ParseResult α :=
  match code header body ctx meta with
  | Except.error e => Except.error e
  | Except.ok (val, header') =>
      if !header'.args.isEmpty then
        Except.error (TypesetError.withMessage argumentExhaustionMessage)
      else
        Except.ok val

/-- The 3-argument shorthand `parse(header, body, ctx)`: the macro rebinds
it to the 4-argument form with the metadata parameter bound but unused. -/
def functionParse3 {Arg C M α : Type}
    (code : FuncHeader Arg → Option String → C → ParseResult (α × FuncHeader Arg)) :
    FuncHeader Arg → Option String → C → M → ParseResult α :=
  functionParse4 (fun header body ctx _meta => code header body ctx)

/-- The 2-argument shorthand `parse(header, body)`: context and metadata
are bound but unused. -/
def functionParse2 {Arg C M α : Type}
    (code : FuncHeader Arg → Option String → ParseResult (α × FuncHeader Arg)) :
    FuncHeader Arg → Option String → C → M → ParseResult α :=
  functionParse4 (fun header body _ctx _meta => code header body)

/-- The 1-argument shorthand `parse(header)`: body, context and metadata
are bound but unused. -/
def functionParse1 {Arg C M α : Type}
    (code : FuncHeader Arg → ParseResult (α × FuncHeader Arg)) :
    FuncHeader Arg → Option String → C → M → ParseResult α :=
  functionParse4 (fun header _body _ctx _meta => code header)

/-- The 0-argument shorthand `parse()`: all four parameters are bound
under hygienic names the implementation body cannot reference, so the
body cannot touch the header; its normal value is paired with the
unchanged header. -/
def functionParse0 {Arg C M α : Type} (code : ParseResult α) :
    FuncHeader Arg → Option String → C → M → ParseResult α :=
  functionParse4 (fun header _body _ctx _meta => code.map (fun val => (val, header)))

/-- The `parse(default)` shorthand: it expands to
`parse(_args, _body, _ctx, _meta) { Default::default() }`, an
implementation ignoring every parameter and yielding the default value
with the header unchanged. -/
def functionParseDefault {Arg C M α : Type} [Inhabited α] :
    FuncHeader Arg → Option String → C → M → ParseResult α :=
  functionParse4 (fun header _body _ctx _meta =>
    Except.ok ((default : α), header))

/-- The `layout` function generated by the 2-argument form of
`function!(@layout ...)`: the body `code` (which may early-return an
error) is evaluated and its normal value wrapped in `Ok` inside the
pinned future; the future's resolution is modelled as the resulting
`Except` value. -/
def functionLayout2 {α C Cmd : Type}
    (code : α → C → Except TypesetError Cmd) (self : α) (ctx : C) :
    Except TypesetError Cmd :=
  match code self ctx with
  | Except.error e => Except.error e
  | Except.ok commands => Except.ok commands

/-- The 1-argument shorthand `layout(self)`: the context parameter is
bound but unused. -/
def functionLayout1 {α C Cmd : Type} (code : α → Except TypesetError Cmd) :
    α → C → Except TypesetError Cmd :=
  functionLayout2 (fun self _ctx => code self)

/-- The 0-argument shorthand `layout()`: both parameters are bound but
unused. -/
def functionLayout0 {α C Cmd : Type} (code : Except TypesetError Cmd) :
    α → C → Except TypesetError Cmd :=
  functionLayout2 (fun _self _ctx => code)

/-- The `parse!(forbidden: body)` policy: a statement that early-returns
the "unexpected body" error from the enclosing parse implementation when
a body is present, and otherwise does nothing.  The early return is
modelled as the error case of `Except`. -/
def parseForbidden (body : Option String) : Except TypesetError Unit :=
  if body.isSome then
    Except.error (TypesetError.withMessage "unexpected body")
  else
    Except.ok ()

/-- The `parse!(optional: body, ctx)` policy: a present body is parsed by
`syntax::parse` (an external collaborator, here the parameter `sp`) under
the same context, taking the first component of its pair result; an
absent body yields `None`. -/
def parseOptional {T U C : Type} (sp : String → C → T × U)
    (body : Option String) (ctx : C) : Option T :=
  match body with
  | some b => some (sp b ctx).1
  | none => none

/-- The `parse!(expected: body, ctx)` policy: a present body is parsed
exactly as in the optional policy; an absent body is the
"unexpected body" error.  The first component of the external parse pair
is itself a `ParseResult` here, as the macro's `Err` branch requires. -/
def parseExpected {Tree U C : Type} (sp : String → C → ParseResult Tree × U)
    (body : Option String) (ctx : C) : ParseResult Tree :=
  match body with
  | some b => (sp b ctx).1
  | none => Except.error (TypesetError.withMessage "unexpected body")

/-- The error-expression form `error!(@fmt ...)`: builds a `TypesetError`
from the formatted message. -/
def errorFormat (formatted : String) : TypesetError :=
  TypesetError.withMessage formatted

/-- The named form `error!(@unexpected_argument)`: it expands to
`error!(@"unexpected argument")`, i.e. the singular message. -/
def errorUnexpectedArgument : TypesetError :=
  errorFormat "unexpected argument"

/-- The metadata type chosen by `function!(@meta ...)`: the declared
`type Meta = ...` item when present, `()` otherwise. -/
def functionMeta (declared : Option Type) : Type :=
  declared.getD Unit

/-- C1: if the parse implementation body completes normally, the generated
wrapper returns the "unexpected arguments" error when the final header's
argument list is non-empty, and `Ok` of the implementation's value when it
is empty. -/
theorem parse_wrapper_checks_leftover_arguments {Arg C M α : Type}
    (code : FuncHeader Arg → Option String → C → M → ParseResult (α × FuncHeader Arg))
    (header : FuncHeader Arg) (body : Option String) (ctx : C) (meta : M)
    (val : α) (header' : FuncHeader Arg)
    (hok : code header body ctx meta = Except.ok (val, header')) :
    (header'.args ≠ [] →
      functionParse4 code header body ctx meta =
        Except.error (TypesetError.withMessage "unexpected arguments")) ∧
    (header'.args = [] →
      functionParse4 code header body ctx meta = Except.ok val) := by
  unfold functionParse4
  rw [hok]
  constructor
  · intro hne
    cases hargs : header'.args with
    | nil => exact absurd hargs hne
    | cons a rest => simp [hargs, argumentExhaustionMessage]
  · intro he
    simp [he]

/-- Witness for C1: a leftover argument yields the "unexpected arguments"
error; an emptied argument list yields `Ok` of the implementation's
value. -/
theorem parse_wrapper_checks_leftover_arguments_witness :
    functionParse4
        (fun (h : FuncHeader Nat) (_ : Option String) (_ : Unit) (_ : Unit) =>
          Except.ok ((0 : Nat), h))
        ⟨"f", [1]⟩ none () () =
      Except.error (TypesetError.withMessage "unexpected arguments") ∧
    functionParse4
        (fun (h : FuncHeader Nat) (_ : Option String) (_ : Unit) (_ : Unit) =>
          Except.ok ((0 : Nat), { h with args := [] }))
        ⟨"f", [1]⟩ none () () = Except.ok 0 :=
  ⟨(parse_wrapper_checks_leftover_arguments _ ⟨"f", [1]⟩ none () () 0 ⟨"f", [1]⟩
      rfl).1 (by decide),
   (parse_wrapper_checks_leftover_arguments _ ⟨"f", [1]⟩ none () () 0 ⟨"f", []⟩
      rfl).2 rfl⟩

/-- C2: the forbidden body policy makes the enclosing generated parse call
return the "unexpected body" error whenever a body is present, and has no
effect on the parse when the body is absent. -/
theorem forbidden_body_policy {Arg C M α : Type}
    (rest : FuncHeader Arg → C → M → ParseResult (α × FuncHeader Arg))
    (header : FuncHeader Arg) (ctx : C) (meta : M) (s : String) :
    functionParse4
        (fun h b c m => (parseForbidden b).bind (fun _ => rest h c m))
        header (some s) ctx meta =
      Except.error (TypesetError.withMessage "unexpected body") ∧
    functionParse4
        (fun h b c m => (parseForbidden b).bind (fun _ => rest h c m))
        header none ctx meta =
      functionParse4 (fun h _b c m => rest h c m) header none ctx meta :=
  ⟨rfl, rfl⟩

/-- C3: the optional body policy yields `none` for an absent body, and for
a present body `B` yields exactly the tree obtained by parsing `B`
directly under the same context (the first component of the external
parse's pair result). -/
theorem optional_body_policy {T U C : Type} (sp : String → C → T × U) (ctx : C) :
    parseOptional sp none ctx = none ∧
    ∀ (b : String), parseOptional sp (some b) ctx = some (sp b ctx).1 :=
  ⟨rfl, fun _ => rfl⟩

/-- C4: the expected body policy fails with the reused "unexpected body"
message when the body is absent, and for a present body behaves exactly
as the optional policy's present-body case. -/
theorem expected_body_policy {Tree U C : Type}
    (sp : String → C → ParseResult Tree × U) (ctx : C) :
    parseExpected sp none ctx =
      Except.error (TypesetError.withMessage "unexpected body") ∧
    ∀ (b : String),
      parseOptional sp (some b) ctx = some (parseExpected sp (some b) ctx) :=
  ⟨rfl, fun _ => rfl⟩

/-- C5: the `parse(default)` shorthand's parse call succeeds with the
default value exactly when the argument list is empty, fails the arity
check with "unexpected arguments" otherwise, and never inspects the body,
context or metadata. -/
theorem parse_default_shorthand {Arg C M α : Type} [Inhabited α]
    (header : FuncHeader Arg) (body : Option String) (ctx : C) (meta : M) :
    functionParseDefault (α := α) header body ctx meta =
      (if header.args.isEmpty then Except.ok (default : α)
       else Except.error (TypesetError.withMessage "unexpected arguments")) ∧
    ∀ (body' : Option String) (ctx' : C) (meta' : M),
      functionParseDefault (α := α) header body ctx meta =
        functionParseDefault (α := α) header body' ctx' meta' := by
  constructor
  · unfold functionParseDefault functionParse4
    cases hargs : header.args.isEmpty <;> simp [hargs, argumentExhaustionMessage]
  · intro _ _ _
    rfl

/-- C6 counterexample: the message of `error!(@unexpected_argument)` is
not the message of the generated argument-exhaustion check — the helper
says "unexpected argument" (singular), the check says
"unexpected arguments" (plural). -/
theorem canonical_message_mismatch :
    errorUnexpectedArgument.message ≠ argumentExhaustionMessage := by
  decide

/-- C6 amended: the helper's canonical message is the singular
"unexpected argument", the exhaustion check's message is the plural
"unexpected arguments", and the two differ exactly by the appended
"s". -/
theorem canonical_message_plural_relation :
    errorUnexpectedArgument.message = "unexpected argument" ∧
    argumentExhaustionMessage = "unexpected arguments" ∧
    errorUnexpectedArgument.message ++ "s" = argumentExhaustionMessage :=
  ⟨rfl, rfl, rfl⟩

/-- C7: each shorthand arity of `parse` (0 to 3 parameters) and of
`layout` (0 or 1 parameters) produces an implementation extensionally
equal to the full form (4-parameter parse, 2-parameter layout) in which
the omitted parameters are bound but unused. -/
theorem shorthand_arities_equal_full_form {Arg C M α Cmd : Type}
    (code0 : ParseResult α)
    (code1 : FuncHeader Arg → ParseResult (α × FuncHeader Arg))
    (code2 : FuncHeader Arg → Option String → ParseResult (α × FuncHeader Arg))
    (code3 : FuncHeader Arg → Option String → C → ParseResult (α × FuncHeader Arg))
    (lay0 : Except TypesetError Cmd) (lay1 : α → Except TypesetError Cmd)
    (header : FuncHeader Arg) (body : Option String) (ctx : C) (meta : M)
    (self : α) (lctx : C) :
    functionParse0 code0 header body ctx meta =
      functionParse4
        (fun h _body _ctx _meta => code0.map (fun val => (val, h)))
        header body ctx meta ∧
    functionParse1 code1 header body ctx meta =
      functionParse4 (fun h _body _ctx _meta => code1 h) header body ctx meta ∧
    functionParse2 code2 header body ctx meta =
      functionParse4 (fun h b _ctx _meta => code2 h b) header body ctx meta ∧
    functionParse3 code3 header body ctx meta =
      functionParse4 (fun h b c _meta => code3 h b c) header body ctx meta ∧
    functionLayout0 lay0 self lctx =
      functionLayout2 (fun _self _ctx => lay0) self lctx ∧
    functionLayout1 lay1 self lctx =
      functionLayout2 (fun s _ctx => lay1 s) self lctx :=
  ⟨rfl, rfl, rfl, rfl, rfl, rfl⟩

/-- C8: a kind declaring no custom metadata type gets the unit metadata
type, whose only value is the unit value threaded into every parse
call. -/
theorem default_metadata_is_unit :
    functionMeta none = Unit ∧ ∀ (m : functionMeta none), m = () :=
  ⟨rfl, fun _ => rfl⟩

/-- C9: if the layout body evaluates normally to a `Commands` value, the
generated layout wrapper's future resolves to `Ok` of exactly that value;
the wrapper introduces no error of its own. -/
theorem layout_wrapper_wraps_value {α C Cmd : Type}
    (code : α → C → Except TypesetError Cmd) (self : α) (ctx : C) (v : Cmd)
    (hv : code self ctx = Except.ok v) :
    functionLayout2 code self ctx = Except.ok v := by
  unfold functionLayout2
  rw [hv]

/-- Witness for C9 at a concrete layout body. -/
theorem layout_wrapper_wraps_value_witness :
    functionLayout2
        (fun (_ : Unit) (_ : Unit) => (Except.ok 3 : Except TypesetError Nat))
        () () = Except.ok 3 :=
  layout_wrapper_wraps_value _ () () 3 rfl

/-- C10: an error early-returned by the parse implementation body is
returned unchanged by the generated wrapper; the argument-exhaustion
check is skipped, so the implementation's error takes precedence even
with leftover arguments. -/
theorem parse_wrapper_propagates_implementation_error {Arg C M α : Type}
    (code : FuncHeader Arg → Option String → C → M → ParseResult (α × FuncHeader Arg))
    (header : FuncHeader Arg) (body : Option String) (ctx : C) (meta : M)
    (e : TypesetError)
    (herr : code header body ctx meta = Except.error e) :
    functionParse4 code header body ctx meta = Except.error e := by
  unfold functionParse4
  rw [herr]

/-- Witness for C10: an implementation error wins even though the header
still holds an argument. -/
theorem parse_wrapper_propagates_implementation_error_witness :
    functionParse4
        (fun (_ : FuncHeader Nat) (_ : Option String) (_ : Unit) (_ : Unit) =>
          (Except.error (TypesetError.withMessage "boom") :
            ParseResult (Nat × FuncHeader Nat)))
        ⟨"f", [1]⟩ none () () =
      Except.error (TypesetError.withMessage "boom") :=
  parse_wrapper_propagates_implementation_error _ ⟨"f", [1]⟩ none () ()
    (TypesetError.withMessage "boom") rfl

end Typst
